import Mathlib

/-!
Shallow embedding of `carladam/petrinet/arc.py` (the arc data model and
operator-style builder of the CarlAdam colored Petri-net library), together
with the auxiliary node/color/token types it depends on.

Python semantics modelled explicitly:
  * `attrs`-generated `__eq__` compares all fields; the custom `__arc_hash__`
    hashes only `(src, dest, frozenset(weight.items()))`.
  * Raising an exception is modelled with `Except`.
  * A `pyrsistent.pmap` from `Color` to a positive count, compared by value,
    is modelled as draw `Multiset Color` (count of a color = its multiplicity).
  * Python object identity (for `Place`, `Transition`, `Token`) is modelled
    with an explicit `id : Nat` field.
-/

/-- Modelled from the spec: `Place` (file `place.py` is not in the sources).
"A named node that holds zero or more tokens… Identity is by object
reference (two places with the same name are distinct nodes)." The `id`
field models the object reference. -/
structure Place where
  id : Nat
  name : String
deriving DecidableEq, Repr

/-- Modelled from the spec: `Transition` node identity and name (file
`transition.py` is not in the sources; guards and production functions are
not needed by the arc-level claims). Identity is by object reference,
modelled with `id`. -/
structure Transition where
  id : Nat
  name : String
deriving DecidableEq, Repr

/-- Modelled from the spec: `Color` (file `color.py` is not in the sources).
"an identity tag representing a token type (e.g., a named kind or a built-in
abstract kind). Colors are compared by identity/name." `Abstract` is the
built-in color. -/
inductive Color where
  | abstract
  | named (name : String)
deriving DecidableEq, Repr

/-- Modelled from the spec: `Token` (file `token.py` is not in the sources).
"Each token carries: a color, and an immutable mapping of auxiliary named
fields (data). Tokens are compared by identity" — the object identity is
modelled with `id`. -/
structure Token where
  id : Nat
  color : Color
  data : List (String × String)
deriving DecidableEq, Repr

/-- Modelled from the spec: a `TokenSet` is a Python `frozenset` of
identity-compared tokens, i.e. a finite set of `Token`. -/
abbrev TokenSet := Finset Token

/-- Modelled from the spec: `ColorSet` is "an immutable mapping from Color to
a positive integer count" with value equality (`pyrsistent.pmap`). A finitely
supported map into positive counts is exactly a finite multiset of colors:
the count of `c` is its multiplicity. -/
abbrev ColorSet := Multiset Color

/-- Modelled from the spec: the exceptions of `carladam.petrinet.errors`
(file `errors.py` is not in the sources). `arcIncomplete` is
`PetriNetArcIncomplete` (with its message); `typeError` is Python's
`TypeError` raised by the `attrs` `instance_of` validators. -/
inductive PetriNetError where
  | arcIncomplete (msg : String)
  | typeError
deriving DecidableEq, Repr

/-- `default_arc_weight`: "By default, arcs transmit a single Abstract
token." — `pmap({Abstract: 1})`. -/
def default_arc_weight : ColorSet := {Color.abstract}

/-- `ArcPT`: "An arc from `Place` → `Transition`." Fields and defaults as in
the `attrs` class. `transform` stores the token-set transform callable. -/
structure ArcPT where
  src : Option Place := none
  dest : Option Transition := none
  weight : ColorSet := default_arc_weight
  annotation : Option String := none
  transform : Option (TokenSet → TokenSet) := none
  completed : Bool := false

/-- `CompletedArcPT`: "A completely-specified ArcPT." `src` must be a
`Place`, `dest` a `Transition` (enforced by validators, see
`CompletedArcPT.init`); `completed` defaults to `True`. -/
structure CompletedArcPT where
  src : Place
  dest : Transition
  weight : ColorSet := default_arc_weight
  annotation : Option String := none
  transform : Option (TokenSet → TokenSet) := none
  completed : Bool := true

/-- `ArcTP`: "An arc from `Transition` → `Place`." -/
structure ArcTP where
  src : Option Transition := none
  dest : Option Place := none
  weight : ColorSet := default_arc_weight
  annotation : Option String := none
  transform : Option (TokenSet → TokenSet) := none
  completed : Bool := false

/-- `CompletedArcTP`: "A completely-specified ArcTP." -/
structure CompletedArcTP where
  src : Transition
  dest : Place
  weight : ColorSet := default_arc_weight
  annotation : Option String := none
  transform : Option (TokenSet → TokenSet) := none
  completed : Bool := true

/-- A dynamically typed node value passed to a constructor whose `attrs`
validators check the runtime class (`instance_of(Place)` /
`instance_of(Transition)`). -/
inductive Node where
  | place (p : Place)
  | transition (t : Transition)
deriving DecidableEq, Repr

/-- Whether a dynamic node value is a `Place` (`isinstance(n, Place)`). -/
def Node.isPlace : Node → Bool
  | .place _ => true
  | .transition _ => false

/-- Whether a dynamic node value is a `Transition`. -/
def Node.isTransition : Node → Bool
  | .place _ => false
  | .transition _ => true

/-- `CompletedArcPT(src=…, dest=…, …)` called with dynamically typed
endpoints: the `attrs` validators run in field order — `instance_of(Place)`
on `src`, then `instance_of(Transition)` on `dest` — raising `TypeError` on
the first mismatch; otherwise the instance is created with
`completed = True`. -/
def CompletedArcPT.init (src dest : Node) (weight : ColorSet)
    (ann : Option String) (tf : Option (TokenSet → TokenSet)) :
    Except PetriNetError CompletedArcPT :=
  match src with
  | .transition _ => .error .typeError
  | .place p =>
    match dest with
    | .place _ => .error .typeError
    | .transition t =>
      .ok { src := p, dest := t, weight := weight, annotation := ann, transform := tf }

/-- `CompletedArcTP(src=…, dest=…, …)` with dynamically typed endpoints:
validator `instance_of(Transition)` on `src`, then `instance_of(Place)` on
`dest`. -/
def CompletedArcTP.init (src dest : Node) (weight : ColorSet)
    (ann : Option String) (tf : Option (TokenSet → TokenSet)) :
    Except PetriNetError CompletedArcTP :=
  match src with
  | .place _ => .error .typeError
  | .transition t =>
    match dest with
    | .transition _ => .error .typeError
    | .place p =>
      .ok { src := t, dest := p, weight := weight, annotation := ann, transform := tf }

/-- `ArcPT.__lshift__` on a `Place` argument (the non-fragment branch):
`if self.dest is None: raise PetriNetArcIncomplete(…)`, otherwise return
`CompletedArcPT(src=other, dest=self.dest, weight, annotation, transform)`. -/
def ArcPT.lshift (self : ArcPT) (other : Place) : Except PetriNetError CompletedArcPT :=
  match self.dest with
  | none => .error (.arcIncomplete "Cannot << to an arc not having a dest")
  | some d =>
    .ok { src := other, dest := d, weight := self.weight,
          annotation := self.annotation, transform := self.transform }

/-- `ArcPT.__rshift__` on a `Transition` argument: `if self.src is None:
raise PetriNetArcIncomplete(…)`, otherwise return
`CompletedArcPT(src=self.src, dest=other, …)`. -/
def ArcPT.rshift (self : ArcPT) (other : Transition) : Except PetriNetError CompletedArcPT :=
  match self.src with
  | none => .error (.arcIncomplete "Cannot >> from an arc not having a src")
  | some s =>
    .ok { src := s, dest := other, weight := self.weight,
          annotation := self.annotation, transform := self.transform }

/-- `ArcTP.__lshift__` on a `Transition` argument. -/
def ArcTP.lshift (self : ArcTP) (other : Transition) : Except PetriNetError CompletedArcTP :=
  match self.dest with
  | none => .error (.arcIncomplete "Cannot << to an arc not having a dest")
  | some d =>
    .ok { src := other, dest := d, weight := self.weight,
          annotation := self.annotation, transform := self.transform }

/-- `ArcTP.__rshift__` on a `Place` argument. -/
def ArcTP.rshift (self : ArcTP) (other : Place) : Except PetriNetError CompletedArcTP :=
  match self.src with
  | none => .error (.arcIncomplete "Cannot >> from an arc not having a src")
  | some s =>
    .ok { src := s, dest := other, weight := self.weight,
          annotation := self.annotation, transform := self.transform }

/-- A `CompletedArcPT` is a Python subclass of `ArcPT`; the inherited
`__lshift__`/`__rshift__` see its attributes through the base-class
interface, with both endpoints present. -/
def CompletedArcPT.toArcPT (a : CompletedArcPT) : ArcPT :=
  { src := some a.src, dest := some a.dest, weight := a.weight,
    annotation := a.annotation, transform := a.transform, completed := a.completed }

/-- A `CompletedArcTP` viewed through the `ArcTP` base-class interface. -/
def CompletedArcTP.toArcTP (a : CompletedArcTP) : ArcTP :=
  { src := some a.src, dest := some a.dest, weight := a.weight,
    annotation := a.annotation, transform := a.transform, completed := a.completed }

/-- `Annotate`: "Decorates an `Arc` with descriptive text to show in
diagrams." -/
structure Annotate where
  text : String
deriving DecidableEq, Repr

/-- `Annotate.apply_to_arc` at dynamic class `ArcPT`: `type(arc)(src=arc.src,
dest=arc.dest, weight=arc.weight, annotation=self.text,
transform=arc.transform)` — `completed` is not passed and takes the class
default (`False` for `ArcPT`). -/
def Annotate.applyToArcPT (self : Annotate) (arc : ArcPT) : ArcPT :=
  { src := arc.src, dest := arc.dest, weight := arc.weight,
    annotation := some self.text, transform := arc.transform, completed := false }

/-- `Annotate.apply_to_arc` at dynamic class `CompletedArcPT` (`completed`
takes the class default `True`). -/
def Annotate.applyToCompletedArcPT (self : Annotate) (arc : CompletedArcPT) : CompletedArcPT :=
  { src := arc.src, dest := arc.dest, weight := arc.weight,
    annotation := some self.text, transform := arc.transform, completed := true }

/-- `Annotate.apply_to_arc` at dynamic class `ArcTP`. -/
def Annotate.applyToArcTP (self : Annotate) (arc : ArcTP) : ArcTP :=
  { src := arc.src, dest := arc.dest, weight := arc.weight,
    annotation := some self.text, transform := arc.transform, completed := false }

/-- `Annotate.apply_to_arc` at dynamic class `CompletedArcTP`. -/
def Annotate.applyToCompletedArcTP (self : Annotate) (arc : CompletedArcTP) : CompletedArcTP :=
  { src := arc.src, dest := arc.dest, weight := arc.weight,
    annotation := some self.text, transform := arc.transform, completed := true }

/-- `TransformEach`: "Sets a function on an `Arc` that transforms each
`Token` passing through it during a `Transition`." `fn` takes a `Token` and
returns a `Token`. -/
structure TransformEach where
  fn : Token → Token

/-- The closure installed by `TransformEach.apply_to_arc`:
`frozenset(self.fn(token) for token in tokens)` — the element-wise image of
`fn` over the token frozenset. -/
def TransformEach.transform (self : TransformEach) (tokens : TokenSet) : TokenSet :=
  tokens.image self.fn

/-- `TransformEach.apply_to_arc` at dynamic class `ArcPT`: same fields, with
`transform` replaced by the closure and `completed` taking the class
default. -/
def TransformEach.applyToArcPT (self : TransformEach) (arc : ArcPT) : ArcPT :=
  { src := arc.src, dest := arc.dest, weight := arc.weight,
    annotation := arc.annotation, transform := some self.transform, completed := false }

/-- `TransformEach.apply_to_arc` at dynamic class `CompletedArcPT`. -/
def TransformEach.applyToCompletedArcPT (self : TransformEach) (arc : CompletedArcPT) :
    CompletedArcPT :=
  { src := arc.src, dest := arc.dest, weight := arc.weight,
    annotation := arc.annotation, transform := some self.transform, completed := true }

/-- `TransformEach.apply_to_arc` at dynamic class `ArcTP`. -/
def TransformEach.applyToArcTP (self : TransformEach) (arc : ArcTP) : ArcTP :=
  { src := arc.src, dest := arc.dest, weight := arc.weight,
    annotation := arc.annotation, transform := some self.transform, completed := false }

/-- `TransformEach.apply_to_arc` at dynamic class `CompletedArcTP`. -/
def TransformEach.applyToCompletedArcTP (self : TransformEach) (arc : CompletedArcTP) :
    CompletedArcTP :=
  { src := arc.src, dest := arc.dest, weight := arc.weight,
    annotation := arc.annotation, transform := some self.transform, completed := true }

/-- `__arc_hash__` hashes `(self.src, self.dest, frozenset(self.weight.items()))`;
two arcs have equal Python hashes exactly when these keys are equal, so the
key is the semantic content of the hash. PT version. -/
def arcHashKeyPT (a : CompletedArcPT) : Place × Transition × ColorSet :=
  (a.src, a.dest, a.weight)

/-- `__arc_hash__` key, TP version. -/
def arcHashKeyTP (a : CompletedArcTP) : Transition × Place × ColorSet :=
  (a.src, a.dest, a.weight)

/-- Python's `__eq__` generated by `attrs` for `CompletedArcPT`: compares
every field (`src`, `dest`, `weight`, `annotation`, `transform`,
`completed`). -/
def arcEqPT (a b : CompletedArcPT) : Prop :=
  a.src = b.src ∧ a.dest = b.dest ∧ a.weight = b.weight ∧
  a.annotation = b.annotation ∧ a.transform = b.transform ∧ a.completed = b.completed

/-- Python tuple comparison `(x1, y1) < (x2, y2)`: lexicographic. -/
def pyPairLt (x y : String × String) : Prop :=
  x.1 < y.1 ∨ (x.1 = y.1 ∧ x.2 < y.2)

/-- `__arc_lt__`: `(self.src.name, self.dest.name) < (other.src.name,
other.dest.name)` — the ordering key of an arc is the pair of endpoint
names. PT version (`__lt__` is duck-typed and compares any two arcs via
these keys). -/
def arcOrderKeyPT (a : CompletedArcPT) : String × String :=
  (a.src.name, a.dest.name)

/-- `__arc_lt__` ordering key, TP version. -/
def arcOrderKeyTP (a : CompletedArcTP) : String × String :=
  (a.src.name, a.dest.name)

/-- `__arc_lt__` between two PT arcs. -/
def arcLtPT (a b : CompletedArcPT) : Prop :=
  pyPairLt (arcOrderKeyPT a) (arcOrderKeyPT b)

/-- `__arc_lt__` between two TP arcs. -/
def arcLtTP (a b : CompletedArcTP) : Prop :=
  pyPairLt (arcOrderKeyTP a) (arcOrderKeyTP b)

/-- `__arc_lt__` is duck-typed: `sorted` on a mixed arc list also compares
a PT arc with a TP arc, through the same name-pair keys. -/
def arcLtMixedPT (a : CompletedArcPT) (b : CompletedArcTP) : Prop :=
  pyPairLt (arcOrderKeyPT a) (arcOrderKeyTP b)

/-- `__arc_lt__` between a TP arc and a PT arc. -/
def arcLtMixedTP (a : CompletedArcTP) (b : CompletedArcPT) : Prop :=
  pyPairLt (arcOrderKeyTP a) (arcOrderKeyPT b)

/-- Sample place used in witnesses. -/
def p0 : Place := ⟨0, "P0"⟩

/-- Second sample place. -/
def p1 : Place := ⟨1, "P1"⟩

/-- Sample transition used in witnesses. -/
def t0 : Transition := ⟨0, "T0"⟩

/-- Second sample transition. -/
def t1 : Transition := ⟨1, "T1"⟩

/-- A partially built PT arc holding only a destination (`p >> {…}` has only
`src`; this one is `{…} >> t` style: only `dest`). -/
def onlyDestPT : ArcPT := { dest := some t0 }

/-- A partially built PT arc holding only a source. -/
def onlySrcPT : ArcPT := { src := some p0 }

/-- A partially built TP arc holding only a destination. -/
def onlyDestTP : ArcTP := { dest := some p0 }

/-- A partially built TP arc holding only a source. -/
def onlySrcTP : ArcTP := { src := some t0 }

/-- C3: on an arc with exactly one endpoint, `>>` with a node raises
`PetriNetArcIncomplete` when `src` is `None` and `<<` raises it when `dest`
is `None`; when the required opposite endpoint is present the operation
returns a completed arc (class `CompletedArcPT`/`CompletedArcTP`,
`completed = True`) carrying over weight, annotation and transform. -/
theorem C3_builder_incomplete_vs_complete (aPT : ArcPT) (aTP : ArcTP)
    (p sp : Place) (t st : Transition) (q : Place) (u : Transition) :
    (aPT.src = none →
      aPT.rshift t = .error (.arcIncomplete "Cannot >> from an arc not having a src")) ∧
    (aPT.dest = none →
      aPT.lshift p = .error (.arcIncomplete "Cannot << to an arc not having a dest")) ∧
    (aPT.src = some sp →
      aPT.rshift t = .ok { src := sp, dest := t, weight := aPT.weight,
                           annotation := aPT.annotation, transform := aPT.transform,
                           completed := true }) ∧
    (aPT.dest = some st →
      aPT.lshift p = .ok { src := p, dest := st, weight := aPT.weight,
                           annotation := aPT.annotation, transform := aPT.transform,
                           completed := true }) ∧
    (aTP.src = none →
      aTP.rshift p = .error (.arcIncomplete "Cannot >> from an arc not having a src")) ∧
    (aTP.dest = none →
      aTP.lshift t = .error (.arcIncomplete "Cannot << to an arc not having a dest")) ∧
    (aTP.src = some u →
      aTP.rshift p = .ok { src := u, dest := p, weight := aTP.weight,
                           annotation := aTP.annotation, transform := aTP.transform,
                           completed := true }) ∧
    (aTP.dest = some q →
      aTP.lshift t = .ok { src := t, dest := q, weight := aTP.weight,
                           annotation := aTP.annotation, transform := aTP.transform,
                           completed := true }) := by
  obtain ⟨os, od, w, an, tf, cf⟩ := aPT
  obtain ⟨os2, od2, w2, an2, tf2, cf2⟩ := aTP
  refine ⟨?_, ?_, ?_, ?_, ?_, ?_, ?_, ?_⟩ <;> intro h <;>
    simp only at h <;> subst h <;> rfl

/-- C3 witness: concrete one-endpoint arcs exercising every branch of
`C3_builder_incomplete_vs_complete`. -/
theorem C3_witness :
    onlyDestPT.rshift t1 = .error (.arcIncomplete "Cannot >> from an arc not having a src") ∧
    onlySrcPT.lshift p1 = .error (.arcIncomplete "Cannot << to an arc not having a dest") ∧
    onlySrcPT.rshift t1 = .ok { src := p0, dest := t1 } ∧
    onlyDestPT.lshift p1 = .ok { src := p1, dest := t0 } ∧
    onlyDestTP.rshift p1 = .error (.arcIncomplete "Cannot >> from an arc not having a src") ∧
    onlySrcTP.lshift t1 = .error (.arcIncomplete "Cannot << to an arc not having a dest") ∧
    onlySrcTP.rshift p1 = .ok { src := t0, dest := p1 } ∧
    onlyDestTP.lshift t1 = .ok { src := t1, dest := p0 } :=
  ⟨(C3_builder_incomplete_vs_complete onlyDestPT onlyDestTP p1 p0 t1 t0 p0 t0).1 rfl,
   (C3_builder_incomplete_vs_complete onlySrcPT onlySrcTP p1 p0 t1 t0 p0 t0).2.1 rfl,
   (C3_builder_incomplete_vs_complete onlySrcPT onlySrcTP p1 p0 t1 t0 p0 t0).2.2.1 rfl,
   (C3_builder_incomplete_vs_complete onlyDestPT onlyDestTP p1 p0 t1 t0 p0 t0).2.2.2.1 rfl,
   (C3_builder_incomplete_vs_complete onlyDestPT onlyDestTP p1 p0 t1 t0 p0 t0).2.2.2.2.1 rfl,
   (C3_builder_incomplete_vs_complete onlySrcPT onlySrcTP p1 p0 t1 t0 p0 t0).2.2.2.2.2.1 rfl,
   (C3_builder_incomplete_vs_complete onlySrcPT onlySrcTP p1 p0 t1 t0 p0 t0).2.2.2.2.2.2.1 rfl,
   (C3_builder_incomplete_vs_complete onlyDestPT onlyDestTP p1 p0 t1 t0 p0 t0).2.2.2.2.2.2.2 rfl⟩

/-- C5: left-to-right and right-to-left assembly agree — completing an
`ArcPT` carrying `src=p` and pending weight `w` by `>> t` yields the same
completed arc as completing one carrying `dest=t` and weight `w` by `<< p`,
and symmetrically for `ArcTP`. -/
theorem C5_lshift_rshift_equivalence (p : Place) (t : Transition) (w : ColorSet)
    (ann : Option String) (tf : Option (TokenSet → TokenSet)) :
    (({ src := some p, weight := w, annotation := ann, transform := tf } : ArcPT).rshift t =
      ({ dest := some t, weight := w, annotation := ann, transform := tf } : ArcPT).lshift p) ∧
    (({ src := some t, weight := w, annotation := ann, transform := tf } : ArcTP).rshift p =
      ({ dest := some p, weight := w, annotation := ann, transform := tf } : ArcTP).lshift t) :=
  ⟨rfl, rfl⟩

/-- C7: the default arc weight is exactly one token of the built-in
`Abstract` color (`{Abstract: 1}`), and every arc class constructed without
an explicit weight carries it. -/
theorem C7_default_weight (p : Place) (t : Transition) (c : Color) :
    Multiset.count Color.abstract default_arc_weight = 1 ∧
    (c ≠ Color.abstract → Multiset.count c default_arc_weight = 0) ∧
    ({} : ArcPT).weight = default_arc_weight ∧
    ({} : ArcTP).weight = default_arc_weight ∧
    ({ src := p, dest := t } : CompletedArcPT).weight = default_arc_weight ∧
    ({ src := t, dest := p } : CompletedArcTP).weight = default_arc_weight :=
  ⟨by simp [default_arc_weight],
   fun h => by simp [default_arc_weight, Multiset.count_singleton, h],
   rfl, rfl, rfl, rfl⟩

/-- C7 witness: the default weight at the concrete colors `Abstract` and
`Color.named "C"`. -/
theorem C7_witness :
    Multiset.count Color.abstract default_arc_weight = 1 ∧
    Multiset.count (Color.named "C") default_arc_weight = 0 :=
  ⟨(C7_default_weight p0 t0 (Color.named "C")).1,
   (C7_default_weight p0 t0 (Color.named "C")).2.1 (by decide)⟩

/-- A concrete completed PT arc (`p0 >> t0`). -/
def completedPT01 : CompletedArcPT := { src := p0, dest := t0 }

/-- A concrete completed TP arc (`t0 >> p0`). -/
def completedTP01 : CompletedArcTP := { src := t0, dest := p0 }

/-- C1 counterexample: applying `>>` or `<<` with a node to an arc that
already has both endpoints does NOT raise `PetriNetArcIncomplete` — the
inherited operators only test the opposite endpoint for `None`, so on a
completed arc they return a fresh completed arc with the endpoint
overwritten. -/
theorem C1_counterexample :
    completedPT01.toArcPT.rshift t1 = .ok { src := p0, dest := t1 } ∧
    completedPT01.toArcPT.lshift p1 = .ok { src := p1, dest := t0 } ∧
    completedTP01.toArcTP.rshift p1 = .ok { src := t0, dest := p1 } ∧
    completedTP01.toArcTP.lshift t1 = .ok { src := t1, dest := p0 } :=
  ⟨rfl, rfl, rfl, rfl⟩

/-- C1 (amended): attaching a node endpoint with `>>`/`<<` to a completed
arc succeeds, returning a new completed arc with that endpoint replaced and
all other fields carried over; `PetriNetArcIncomplete` is raised only when
the required opposite endpoint is missing, which never holds on a completed
arc. -/
theorem C1_extend_completed_overwrites (a : CompletedArcPT) (b : CompletedArcTP)
    (p : Place) (t : Transition) :
    (a.toArcPT.rshift t = .ok { src := a.src, dest := t, weight := a.weight,
                                annotation := a.annotation, transform := a.transform,
                                completed := true }) ∧
    (a.toArcPT.lshift p = .ok { src := p, dest := a.dest, weight := a.weight,
                                annotation := a.annotation, transform := a.transform,
                                completed := true }) ∧
    (b.toArcTP.rshift p = .ok { src := b.src, dest := p, weight := b.weight,
                                annotation := b.annotation, transform := b.transform,
                                completed := true }) ∧
    (b.toArcTP.lshift t = .ok { src := t, dest := b.dest, weight := b.weight,
                                annotation := b.annotation, transform := b.transform,
                                completed := true }) :=
  ⟨rfl, rfl, rfl, rfl⟩

/-- Whether a dynamically-typed constructor call succeeded (no exception). -/
def isOkE {α : Type} : Except PetriNetError α → Bool
  | .ok _ => true
  | .error _ => false

/-- C4: construction of a completed arc type-checks its endpoints via the
`attrs` validators — `CompletedArcPT` succeeds exactly when `src` is a
`Place` and `dest` a `Transition`, `CompletedArcTP` exactly in the
symmetric case, and any mismatch (in particular Place→Place and
Transition→Transition) raises `TypeError` at construction time. -/
theorem C4_endpoint_type_check (s d : Node) (w : ColorSet) (ann : Option String)
    (tf : Option (TokenSet → TokenSet)) :
    (isOkE (CompletedArcPT.init s d w ann tf) = (s.isPlace && d.isTransition)) ∧
    ((s.isPlace && d.isTransition) = false →
      CompletedArcPT.init s d w ann tf = .error .typeError) ∧
    (isOkE (CompletedArcTP.init s d w ann tf) = (s.isTransition && d.isPlace)) ∧
    ((s.isTransition && d.isPlace) = false →
      CompletedArcTP.init s d w ann tf = .error .typeError) := by
  cases s <;> cases d <;>
    simp [CompletedArcPT.init, CompletedArcTP.init, isOkE,
          Node.isPlace, Node.isTransition]

/-- C4 witness: Place→Place and Transition→Transition constructions fail
with the type error at concrete nodes. -/
theorem C4_witness :
    CompletedArcPT.init (.place p0) (.place p1) default_arc_weight none none =
      .error .typeError ∧
    CompletedArcTP.init (.transition t0) (.transition t1) default_arc_weight none none =
      .error .typeError :=
  ⟨(C4_endpoint_type_check (.place p0) (.place p1) default_arc_weight none none).2.1 rfl,
   (C4_endpoint_type_check (.transition t0) (.transition t1) default_arc_weight none none).2.2.2 rfl⟩

/-- Python's `attrs`-generated `__eq__` for `CompletedArcTP`: compares every
field. -/
def arcEqTP (a b : CompletedArcTP) : Prop :=
  a.src = b.src ∧ a.dest = b.dest ∧ a.weight = b.weight ∧
  a.annotation = b.annotation ∧ a.transform = b.transform ∧ a.completed = b.completed

/-- A completed arc annotated `"A"`. -/
def arcAnnA : CompletedArcPT := { src := p0, dest := t0, annotation := some "A" }

/-- The same arc annotated `"B"`. -/
def arcAnnB : CompletedArcPT := { src := p0, dest := t0, annotation := some "B" }

/-- C2 counterexample: two completed arcs with identical source, destination
and weight but different annotations have equal hash keys yet are NOT equal
(`attrs` `__eq__` compares the annotation field too), so a Python set keeps
both. -/
theorem C2_counterexample :
    arcHashKeyPT arcAnnA = arcHashKeyPT arcAnnB ∧
    ¬ arcEqPT arcAnnA arcAnnB ∧
    arcAnnA ≠ arcAnnB :=
  ⟨rfl,
   fun h => absurd h.2.2.2.1 (by decide),
   fun h => absurd (congrArg CompletedArcPT.annotation h) (by decide)⟩

/-- C2 (amended): two completed arcs with identical (source, destination,
weight) always hash equal — the hash ignores annotation and transform — but
they compare equal (and hence deduplicate in a set) only when every field,
including annotation, transform and the completed flag, is also equal. -/
theorem C2_hash_vs_eq (a b : CompletedArcPT) (c d : CompletedArcTP) :
    (arcHashKeyPT a = arcHashKeyPT b ↔
      a.src = b.src ∧ a.dest = b.dest ∧ a.weight = b.weight) ∧
    (a = b ↔ arcEqPT a b) ∧
    (arcHashKeyTP c = arcHashKeyTP d ↔
      c.src = d.src ∧ c.dest = d.dest ∧ c.weight = d.weight) ∧
    (c = d ↔ arcEqTP c d) := by
  refine ⟨?_, ?_, ?_, ?_⟩
  · simp [arcHashKeyPT, Prod.ext_iff]
  · obtain ⟨s, e, w, an, tf, cf⟩ := a
    obtain ⟨s2, e2, w2, an2, tf2, cf2⟩ := b
    simp [arcEqPT]
  · simp [arcHashKeyTP, Prod.ext_iff]
  · obtain ⟨s, e, w, an, tf, cf⟩ := c
    obtain ⟨s2, e2, w2, an2, tf2, cf2⟩ := d
    simp [arcEqTP]

/-- Python tuple `<` on pairs of strings is trichotomous. -/
theorem pyPairLt_trichotomy (x y : String × String) :
    pyPairLt x y ∨ x = y ∨ pyPairLt y x := by
  obtain ⟨x1, x2⟩ := x
  obtain ⟨y1, y2⟩ := y
  rcases lt_trichotomy x1 y1 with h | h | h
  · exact .inl (.inl h)
  · rcases lt_trichotomy x2 y2 with h2 | h2 | h2
    · exact .inl (.inr ⟨h, h2⟩)
    · subst h; subst h2; exact .inr (.inl rfl)
    · exact .inr (.inr (.inr ⟨h.symm, h2⟩))
  · exact .inr (.inr (.inl h))

/-- C8: `__arc_lt__` orders completed arcs — of the same direction or, being
duck-typed, of mixed PT/TP directions — exactly by the lexicographic
comparison of (source name, destination name), and this comparison is total
(any two arcs are `<`-related or have equal ordering keys), giving a
deterministic sort order; concretely, `p >> t` sorts before `t >> p` for a
place named "P" and a transition named "T", as in the mixed-list sorting
test. -/
theorem C8_lt_is_lex_on_names (a b : CompletedArcPT) (c d : CompletedArcTP) :
    (arcLtPT a b ↔
      a.src.name < b.src.name ∨ (a.src.name = b.src.name ∧ a.dest.name < b.dest.name)) ∧
    (arcLtTP c d ↔
      c.src.name < d.src.name ∨ (c.src.name = d.src.name ∧ c.dest.name < d.dest.name)) ∧
    (arcLtMixedPT a d ↔
      a.src.name < d.src.name ∨ (a.src.name = d.src.name ∧ a.dest.name < d.dest.name)) ∧
    (arcLtMixedTP c b ↔
      c.src.name < b.src.name ∨ (c.src.name = b.src.name ∧ c.dest.name < b.dest.name)) ∧
    (arcLtPT a b ∨ arcOrderKeyPT a = arcOrderKeyPT b ∨ arcLtPT b a) ∧
    (arcLtTP c d ∨ arcOrderKeyTP c = arcOrderKeyTP d ∨ arcLtTP d c) ∧
    (arcLtMixedPT a d ∨ arcOrderKeyPT a = arcOrderKeyTP d ∨ arcLtMixedTP d a) ∧
    arcLtMixedPT { src := ⟨0, "P"⟩, dest := ⟨0, "T"⟩ } { src := ⟨0, "T"⟩, dest := ⟨0, "P"⟩ } :=
  ⟨Iff.rfl, Iff.rfl, Iff.rfl, Iff.rfl,
   pyPairLt_trichotomy (arcOrderKeyPT a) (arcOrderKeyPT b),
   pyPairLt_trichotomy (arcOrderKeyTP c) (arcOrderKeyTP d),
   pyPairLt_trichotomy (arcOrderKeyPT a) (arcOrderKeyTP d),
   Or.inl (String.lt_iff_toList_lt.mpr (by decide))⟩

/-- C9: `Annotate.apply_to_arc` returns a new arc of the same class with
only the annotation replaced by the fragment's text, and
`TransformEach.apply_to_arc` one with only the transform replaced by the
element-wise closure; src, dest and weight (and the respectively untouched
annotation/transform field) are carried over unchanged, a completed class
stays completed, and — being pure constructions — the original arc is not
mutated. -/
theorem C9_fragment_frame (an : Annotate) (te : TransformEach)
    (a : ArcPT) (b : CompletedArcPT) (c : ArcTP) (d : CompletedArcTP) :
    (an.applyToArcPT a =
      { src := a.src, dest := a.dest, weight := a.weight,
        annotation := some an.text, transform := a.transform, completed := false }) ∧
    (an.applyToCompletedArcPT b =
      { src := b.src, dest := b.dest, weight := b.weight,
        annotation := some an.text, transform := b.transform, completed := true }) ∧
    (an.applyToArcTP c =
      { src := c.src, dest := c.dest, weight := c.weight,
        annotation := some an.text, transform := c.transform, completed := false }) ∧
    (an.applyToCompletedArcTP d =
      { src := d.src, dest := d.dest, weight := d.weight,
        annotation := some an.text, transform := d.transform, completed := true }) ∧
    (te.applyToArcPT a =
      { src := a.src, dest := a.dest, weight := a.weight,
        annotation := a.annotation, transform := some te.transform, completed := false }) ∧
    (te.applyToCompletedArcPT b =
      { src := b.src, dest := b.dest, weight := b.weight,
        annotation := b.annotation, transform := some te.transform, completed := true }) ∧
    (te.applyToArcTP c =
      { src := c.src, dest := c.dest, weight := c.weight,
        annotation := c.annotation, transform := some te.transform, completed := false }) ∧
    (te.applyToCompletedArcTP d =
      { src := d.src, dest := d.dest, weight := d.weight,
        annotation := d.annotation, transform := some te.transform, completed := true }) :=
  ⟨rfl, rfl, rfl, rfl, rfl, rfl, rfl, rfl⟩

/-- Sample token with identity 0. -/
def tokA : Token := ⟨0, .abstract, []⟩

/-- Sample token with identity 1. -/
def tokB : Token := ⟨1, .abstract, []⟩

/-- Sample token with identity 2. -/
def tokC : Token := ⟨2, .abstract, []⟩

/-- A token function returning the identical object for every input. -/
def constFnC : Token → Token := fun _ => tokC

/-- C6 counterexample: the transform installed by `TransformEach` builds a
`frozenset`, so with a function returning the identical token for two
distinct input tokens the output is NOT the multiset of `fn(t)` for each
`t` — multiplicity is lost (one output element for two inputs). -/
theorem C6_counterexample :
    (TransformEach.transform ⟨constFnC⟩ {tokA, tokB}).val ≠
      Multiset.map constFnC ({tokA, tokB} : Finset Token).val := by
  decide

/-- C6 (amended): the transform installed by `TransformEach(fn)` is the
element-wise image of `fn` over the input token set — `u` is in the output
iff it is `fn t` for some input token `t` — and it equals the element-wise
multiset map (multiplicity preserved) whenever `fn` is injective on the
input; the closure is installed unchanged on both arc directions. -/
theorem C6_transform_each (fn : Token → Token) (a : ArcPT) (b : ArcTP)
    (S : TokenSet) (u : Token) :
    ArcPT.transform (TransformEach.applyToArcPT ⟨fn⟩ a) =
      some (TransformEach.transform ⟨fn⟩) ∧
    ArcTP.transform (TransformEach.applyToArcTP ⟨fn⟩ b) =
      some (TransformEach.transform ⟨fn⟩) ∧
    (u ∈ TransformEach.transform ⟨fn⟩ S ↔ ∃ t ∈ S, fn t = u) ∧
    (Set.InjOn fn S →
      (TransformEach.transform ⟨fn⟩ S).val = Multiset.map fn S.val) :=
  ⟨rfl, rfl, Finset.mem_image,
   fun h => Finset.image_val_of_injOn h⟩

/-- C6 witness: the identity function is injective on `{tokA}`, where the
transform preserves the multiset exactly. -/
theorem C6_witness :
    (TransformEach.transform ⟨fun tok => tok⟩ {tokA}).val =
      Multiset.map (fun tok => tok) ({tokA} : Finset Token).val :=
  (C6_transform_each (fun tok => tok) {} {} {tokA} tokA).2.2.2
    (fun _ _ _ _ h => h)

/-- C10: the `TransformEach` transform returns a frozenset: its output
never has more elements than its input, and when `fn` sends two distinct
input tokens to the identical token the duplicates collapse into a single
output element. -/
theorem C10_transform_frozenset (fn : Token → Token) (S : TokenSet) (u v : Token) :
    (TransformEach.transform ⟨fn⟩ S).card ≤ S.card ∧
    (fn u = fn v → TransformEach.transform ⟨fn⟩ {u, v} = {fn u}) := by
  constructor
  · exact Finset.card_image_le
  · intro h
    simp [TransformEach.transform, Finset.image_insert, h]

/-- C10 witness: the constant function collapses the two distinct tokens
`tokA`, `tokB` into the single output `tokC`, with cardinality 1 ≤ 2. -/
theorem C10_witness :
    (TransformEach.transform ⟨constFnC⟩ {tokA, tokB}).card ≤
      ({tokA, tokB} : Finset Token).card ∧
    TransformEach.transform ⟨constFnC⟩ {tokA, tokB} = {constFnC tokA} :=
  ⟨(C10_transform_frozenset constFnC {tokA, tokB} tokA tokB).1,
   (C10_transform_frozenset constFnC {tokA, tokB} tokA tokB).2 rfl⟩
